import Mathlib

set_option maxRecDepth 20000

/-!
Shallow embedding of the response-normalization layer of the backend
(file backend/app/transformers.py) together with proofs about it.

Raw vendor payloads are modelled as a JSON value tree.  Python mappings
become association lists whose lookup returns the first binding; numeric
values are modelled as integers (the payload fields exercised here are
integral); Python string conversion of container values is modelled by a
repr-like printer without escape handling, which no theorem below depends
on.  Functions that can raise in Python (a TypeError from an order
comparison or from the regex engine) return Except; every other function
is total, exactly as in the source.
-/

inductive JSON where
  | null
  | bool (b : Bool)
  | int (n : Int)
  | str (s : String)
  | arr (elems : List JSON)
  | obj (fields : List (String × JSON))

/-- Python dict lookup: the value bound to a key, if present. -/
def lookupJ : List (String × JSON) → String → Option JSON
  | [], _ => none
  | (k, v) :: rest, key => if k = key then some v else lookupJ rest key

/-- Python dict.get with a default value. -/
def getJ (fields : List (String × JSON)) (key : String) (dflt : JSON) : JSON :=
  (lookupJ fields key).getD dflt

/-- Python truthiness of a JSON value. -/
def truthy : JSON → Bool
  | .null => false
  | .bool b => b
  | .int n => n != 0
  | .str s => s != ""
  | .arr l => !l.isEmpty
  | .obj l => !l.isEmpty

/-- Python `a or b`: the first operand when truthy, else the second. -/
def pyOr (a b : JSON) : JSON :=
  if truthy a then a else b

/-- Python int value of a number-like JSON value (bool is an int in Python). -/
def pyNum : JSON → Option Int
  | .int n => some n
  | .bool b => some (if b then 1 else 0)
  | _ => none

def jsonOfOptStr : Option String → JSON
  | some s => .str s
  | none => .null

mutual
/-- Python str() of a container value (recursive part).  Container repr is
simplified: string escapes are not modelled, which no theorem depends on. -/
def pyStrRec : JSON → String
  | .null => "None"
  | .bool b => if b then "True" else "False"
  | .int n => toString n
  | .str s => s
  | .arr l => "[" ++ pyReprList l ++ "]"
  | .obj l => "\x7b" ++ pyReprObj l ++ "\x7d"

/-- Python repr() of a value, as it appears inside containers. -/
def pyRepr : JSON → String
  | .str s => "\x27" ++ s ++ "\x27"
  | .arr l => "[" ++ pyReprList l ++ "]"
  | .obj l => "\x7b" ++ pyReprObj l ++ "\x7d"
  | v => pyStrRec v

def pyReprList : List JSON → String
  | [] => ""
  | [v] => pyRepr v
  | v :: rest => pyRepr v ++ ", " ++ pyReprList rest

def pyReprObj : List (String × JSON) → String
  | [] => ""
  | [(k, v)] => "\x27" ++ k ++ "\x27: " ++ pyRepr v
  | (k, v) :: rest => "\x27" ++ k ++ "\x27: " ++ pyRepr v ++ ", " ++ pyReprObj rest
end

/-- Python str() of a value; the scalar cases reduce definitionally and the
container cases delegate to the recursive printer. -/
def pyStr : JSON → String
  | .null => "None"
  | .bool b => if b then "True" else "False"
  | .int n => toString n
  | .str s => s
  | v => pyStrRec v

/-! ## extract_data (transformers.py lines 12 to 37) -/

/-- Source extract_data: unwrap the meta/data envelope for single items. -/
def extract_data : JSON → List (String × JSON)
  | .obj fields =>
    match lookupJ fields "meta", lookupJ fields "data" with
    | some _, some d =>
      match d with
      | .obj dl => dl
      | _ => []
    | _, _ => fields
  | _ => []

/-! ## extract_list (transformers.py lines 40 to 104) -/

/-- Source inner step of extract_list for one candidate key: a list value is
taken directly; a mapping value holding a nested data list is unwrapped one
more level; anything else is no match. -/
def tryKey (data : List (String × JSON)) (k : String) : Option (List JSON) :=
  match lookupJ data k with
  | some (.arr l) => some l
  | some (.obj fields) =>
    match lookupJ fields "data" with
    | some (.arr l) => some l
    | _ => none
  | _ => none

/-- Source fallback key priority list of extract_list. -/
def fallbackKeys : List String := ["data", "networks", "eeros", "devices", "profiles"]

/-- Source extract_list: unwrap the meta/data envelope for list payloads. -/
def extract_list (raw : JSON) (listKey : Option String) : List JSON :=
  match raw with
  | .arr l => l
  | .obj fields =>
    match lookupJ fields "meta", lookupJ fields "data" with
    | some _, some d =>
      match d with
      | .arr l => l
      | .obj data =>
        let fromKey : Option (List JSON) :=
          match listKey with
          | some k => if k != "" then tryKey data k else none
          | none => none
        match fromKey with
        | some l => l
        | none => (fallbackKeys.findSome? (tryKey data)).getD []
      | _ => []
    | _, _ =>
      match listKey with
      | some k =>
        if k != "" then
          match lookupJ fields k with
          | some (.arr l) => l
          | _ => []
        else []
      | none => []
  | _ => []

/-! ## extract_id_from_url (transformers.py lines 107 to 119) -/

/-- Python rstrip with a slash argument: drop every trailing slash. -/
def rstripSlash (l : List Char) : List Char :=
  (l.reverse.dropWhile (fun c => c = '/')).reverse

/-- Python split on a slash separator (keeps empty chunks, total). -/
def splitSlash : List Char → List (List Char)
  | [] => [[]]
  | c :: rest =>
    match splitSlash rest with
    | [] => [[]]
    | s :: ss => if c = '/' then [] :: s :: ss else (c :: s) :: ss

/-- Source extract_id_from_url applied to an arbitrary raw field value:
a falsy value yields none, otherwise the value is converted with str() and
the last chunk after stripping trailing slashes is returned. -/
def extractIdJ (v : JSON) : Option String :=
  if truthy v then
    some (String.mk ((splitSlash (rstripSlash (pyStr v).toList)).getLastD []))
  else none

/-- Source extract_id_from_url at its annotated signature (url is a string
or absent). -/
def extract_id_from_url (url : Option String) : Option String :=
  match url with
  | none => none
  | some u => extractIdJ (.str u)

/-! ## check_success (transformers.py lines 573 to 592) -/

/-- Python equality of a meta code value with the integer 200. -/
def codeIs200 (c : JSON) : Bool :=
  match pyNum c with
  | some n => n == 200
  | none => false

/-- Source check_success: interpret an envelope or legacy boolean result. -/
def check_success : JSON → Bool
  | .null => false
  | .bool b => b
  | .obj fields =>
    match getJ fields "meta" (.obj []) with
    | .obj meta =>
      match getJ meta "code" .null with
      | .null => true
      | c => codeIs200 c
    | _ => true
  | v => truthy v

/-! ## normalize_device (transformers.py lines 252 to 370) -/

/-- Python int() applied to a string: surrounding whitespace is stripped, an
optional sign is accepted, then decimal digits with single underscores
allowed between digits. -/
def parseDigits : List Char → Option Nat
  | [] => none
  | c :: rest =>
    if c.isDigit then parseDigitsGo (c.toNat - 48) rest else none
where
  parseDigitsGo (acc : Nat) : List Char → Option Nat
    | [] => some acc
    | '_' :: d :: rest =>
      if d.isDigit then parseDigitsGo (acc * 10 + (d.toNat - 48)) rest else none
    | d :: rest =>
      if d.isDigit then parseDigitsGo (acc * 10 + (d.toNat - 48)) rest else none

/-- Whitespace strip of Python int() modelled on the character list. -/
def trimChars (l : List Char) : List Char :=
  ((l.dropWhile Char.isWhitespace).reverse.dropWhile Char.isWhitespace).reverse

def pyInt (s : String) : Option Int :=
  match trimChars s.toList with
  | '-' :: r => (parseDigits r).map (fun n => -(n : Int))
  | '+' :: r => (parseDigits r).map (fun n => (n : Int))
  | r => (parseDigits r).map (fun n => (n : Int))

/-- Python replace of the dBm suffix pattern with the empty string: the
string is scanned left to right and every non-overlapping occurrence of the
four pattern characters is removed. -/
def stripDBm : List Char → List Char
  | ' ' :: 'd' :: 'B' :: 'm' :: rest => stripDBm rest
  | c :: rest => c :: stripDBm rest
  | [] => []

/-- Source signal parse: a truthy string value has every occurrence of the
dBm suffix removed and is fed to int(); failures yield no signal. -/
def parseSignal : Option JSON → Option Int
  | some (.str s) => if s != "" then pyInt (String.mk (stripDBm s.toList)) else none
  | _ => none

/-- Source frequency classification: a truthy MHz value is compared with
4000; Python raises a TypeError when the value is not a number. -/
def freqBand (v : JSON) : Except String (Option String) :=
  if truthy v then
    match pyNum v with
    | some n => .ok (some (if n > 4000 then "5GHz" else "2.4GHz"))
    | none => .error "TypeError: unorderable types in frequency comparison"
  else .ok none

/-- Integer division rounded to nearest, ties to even (den positive). -/
def rndHalfEven (num den : Nat) : Nat :=
  let q := num / den
  let r := num % den
  if 2 * r > den then q + 1
  else if 2 * r < den then q
  else if q % 2 = 0 then q else q + 1

/-- Floor base-two logarithm with explicit fuel, so that it reduces in the
kernel; the fuel covers every quotient below the float overflow bound. -/
def log2Fuel : Nat → Nat → Nat
  | 0, _ => 0
  | fuel + 1, n => if 2 ≤ n then log2Fuel fuel (n / 2) + 1 else 0

/-- The IEEE-754 binary64 value nearest to b divided by one million, for a
positive integer b below the overflow bound, as the exact pair (m, e) with
value m times 2 to the e: the 53-bit significand is obtained by rounding
half to even, exactly as CPython int by int true division rounds.  Every
such quotient is in the normal range, since b of at least 1 gives a
quotient of at least ten to the minus sixth. -/
def floatDivMega (b : Nat) : Nat × Int :=
  let k : Int := (log2Fuel 4096 (b * 2 ^ 100 / 1000000) : Int) - 100
  let e : Int := k - 52
  let m :=
    if 0 ≤ e then rndHalfEven b (1000000 * 2 ^ e.toNat)
    else rndHalfEven (b * 2 ^ (-e).toNat) 1000000
  (m, e)

/-- CPython overflow condition for int by int true division: the correctly
rounded quotient b over one million reaches 2 to the 1024, in which case
Python raises OverflowError before any formatting.  The bound is written
with small exponents so that literal folding stays below the elaborator
threshold. -/
def divMegaOverflows (b : Nat) : Bool :=
  let p := 2 ^ 256
  1000000 * (p * p * p * p - p * p * p * 2 ^ 202) ≤ b

/-- CPython one-decimal formatting of rate_bps over one million: the binary
double nearest to the quotient is computed exactly, then its exact value is
rounded to one decimal place half to even, which is the rounding the .1f
format specifier applies to the value of the double. -/
def fmt1 (n : Int) : String :=
  let b := n.toNat
  let me := floatDivMega b
  let t :=
    match me.2 with
    | .ofNat e2 => me.1 * 10 * 2 ^ e2
    | .negSucc e2 => rndHalfEven (me.1 * 10) (2 ^ (e2 + 1))
  toString (t / 10) ++ "." ++ toString (t % 10)

/-- Source rate-info derivation: a truthy, numeric, positive rate_bps inside
the given info mapping is converted to a megabit string; the division can
raise OverflowError when the quotient leaves the double range. -/
def bitrateFrom (info : JSON) : Except String (Option String) :=
  match info with
  | .obj fields =>
    match lookupJ fields "rate_bps" with
    | some v =>
      if truthy v then
        match pyNum v with
        | some n =>
          if n > 0 then
            if divMegaOverflows n.toNat then
              .error "OverflowError: integer division result too large for a float"
            else .ok (some (fmt1 n ++ " MBit/s"))
          else .ok none
        | none => .ok none
      else .ok none
    | none => .ok none
  | _ => .ok none

/-- Source bitrate resolution: keep a truthy direct value, otherwise try the
rate-info derivation, otherwise keep the (falsy) direct value. -/
def deriveBitrate (base info : JSON) : Except String JSON :=
  if truthy base then .ok base
  else
    match bitrateFrom info with
    | .ok (some s) => .ok (.str s)
    | .ok none => .ok base
    | .error e => .error e

structure ConnInfo where
  signal : Option Int := none
  signal_bars : JSON := .null
  frequency : Option String := none
  frequency_mhz : JSON := .null
  rx_bitrate : JSON := .null
  tx_bitrate : JSON := .null

/-- Source connectivity block of normalize_device (lines 273 to 302): the
frequency comparison, then the tx derivation, then the rx derivation can
each raise, in source order. -/
def connOf (v : JSON) : Except String ConnInfo :=
  match v with
  | .obj c =>
    match freqBand (getJ c "frequency" .null) with
    | .error e => .error e
    | .ok freq =>
      match deriveBitrate (getJ c "tx_bitrate" .null) (getJ c "tx_rate_info" (.obj [])) with
      | .error e => .error e
      | .ok tx =>
        match deriveBitrate (getJ c "rx_bitrate" .null) (getJ c "rx_rate_info" (.obj [])) with
        | .error e => .error e
        | .ok rx =>
          .ok
            { signal := parseSignal (lookupJ c "signal")
              signal_bars := getJ c "score_bars" .null
              frequency := freq
              frequency_mhz := getJ c "frequency" .null
              rx_bitrate := rx
              tx_bitrate := tx }
  | _ => .ok {}

/-- Leftmost regex match of a fixed marker followed by one or more characters
other than a slash; returns the greedy capture, as re.search does. -/
def findSegAfter (marker : List Char) : List Char → Option (List Char)
  | [] => none
  | c :: rest =>
    if marker.isPrefixOf (c :: rest) then
      let cap := ((c :: rest).drop marker.length).takeWhile (fun ch => ch != '/')
      if cap.isEmpty then findSegAfter marker rest else some cap
    else findSegAfter marker rest

structure SourceInfo where
  eero : JSON := .null
  eero_id : JSON := .null
  model : JSON := .null

/-- Source eero block of normalize_device (lines 304 to 318): re.search
raises a TypeError when the url value is truthy but not a string. -/
def sourceOf (v : JSON) : Except String SourceInfo :=
  match v with
  | .obj s =>
    let urlv := getJ s "url" .null
    let eero := pyOr (getJ s "location" .null) (getJ s "display_name" .null)
    let model := getJ s "model" .null
    if truthy urlv then
      match urlv with
      | .str u =>
        .ok
          { eero := eero
            eero_id := jsonOfOptStr ((findSegAfter "/eeros/".toList u.toList).map String.mk)
            model := model }
      | _ => .error "TypeError: expected string or bytes-like object"
    else .ok { eero := eero, eero_id := .null, model := model }
  | _ => .ok {}

/-- Source profile block of normalize_device (lines 320 to 327): the pair of
the resolved profile_id value and profile_name value. -/
def profileOf (raw : List (String × JSON)) : JSON × JSON :=
  let p := pyOr (getJ raw "profile" (.obj [])) (.obj [])
  let pid0 := getJ raw "profile_id" .null
  match p with
  | .obj pf =>
    let pid := if truthy pid0 then pid0 else jsonOfOptStr (extractIdJ (getJ pf "url" .null))
    (pid, getJ pf "name" .null)
  | _ => (pid0, .null)

/-- Source normalize_device: the canonical flat device mapping; an error is
the propagated Python exception. -/
def normalize_device (raw : List (String × JSON)) : Except String (List (String × JSON)) :=
  match connOf (pyOr (getJ raw "connectivity" (.obj [])) (.obj [])) with
  | .error e => .error e
  | .ok conn =>
    match sourceOf (pyOr (getJ raw "source" (.obj [])) (.obj [])) with
    | .error e => .error e
    | .ok src =>
      let prof := profileOf raw
      .ok
        [ ("id", jsonOfOptStr (extractIdJ (getJ raw "url" .null)))
        , ("url", getJ raw "url" .null)
        , ("mac", getJ raw "mac" .null)
        , ("ip", getJ raw "ip" .null)
        , ("ips", getJ raw "ips" (.arr []))
        , ("ipv4", getJ raw "ipv4" .null)
        , ("nickname", getJ raw "nickname" .null)
        , ("hostname", getJ raw "hostname" .null)
        , ("display_name",
            pyOr (pyOr (getJ raw "display_name" .null) (getJ raw "nickname" .null))
              (getJ raw "hostname" .null))
        , ("manufacturer", getJ raw "manufacturer" .null)
        , ("model_name", getJ raw "model_name" .null)
        , ("device_type", getJ raw "device_type" .null)
        , ("connected", pyOr (getJ raw "connected" .null) (.bool false))
        , ("wireless", pyOr (getJ raw "wireless" .null) (.bool false))
        , ("blocked", pyOr (getJ raw "blacklisted" .null) (.bool false))
        , ("paused", pyOr (getJ raw "paused" .null) (.bool false))
        , ("is_guest", pyOr (getJ raw "is_guest" .null) (.bool false))
        , ("is_private", pyOr (getJ raw "is_private" .null) (.bool false))
        , ("connection_type",
            .str (if truthy (getJ raw "wireless" .null) then "wireless" else "wired"))
        , ("signal_strength", match conn.signal with | some n => .int n | none => .null)
        , ("signal_bars", conn.signal_bars)
        , ("frequency", jsonOfOptStr conn.frequency)
        , ("frequency_mhz", conn.frequency_mhz)
        , ("channel", getJ raw "channel" .null)
        , ("ssid", getJ raw "ssid" .null)
        , ("rx_bitrate", conn.rx_bitrate)
        , ("tx_bitrate", conn.tx_bitrate)
        , ("connected_to_eero", src.eero)
        , ("connected_to_eero_id", src.eero_id)
        , ("connected_to_eero_model", src.model)
        , ("profile_id", prof.1)
        , ("profile_name", prof.2)
        , ("last_active", getJ raw "last_active" .null)
        , ("first_active", getJ raw "first_active" .null)
        , ("network_id", getJ raw "network_id" .null)
        , ("subnet_kind", getJ raw "subnet_kind" .null)
        , ("auth", getJ raw "auth" .null)
        , ("_raw", .obj raw)
        ]

/-! ## normalize_eero (transformers.py lines 373 to 464) -/

/-- Source per-port reduction inside normalize_eero: mapping entries become a
reduced port mapping, other entries are skipped. -/
def portInfo : JSON → Option JSON
  | .obj port =>
    let base : List (String × JSON) :=
      [ ("port_name", getJ port "port_name" .null)
      , ("interface_number", getJ port "interfaceNumber" .null)
      , ("has_carrier", getJ port "hasCarrier" .null)
      , ("speed", getJ port "speed" .null)
      , ("is_wan_port", getJ port "isWanPort" .null)
      , ("is_lte", getJ port "isLte" .null)
      ]
    let extra : List (String × JSON) :=
      match getJ port "neighbor" (.obj []) with
      | .obj nb =>
        match getJ nb "metadata" (.obj []) with
        | .obj md =>
          [ ("neighbor_location", getJ md "location" .null)
          , ("neighbor_port", getJ md "port_name" .null)
          ]
        | _ => []
      | _ => []
    some (.obj (base ++ extra))
  | _ => none

/-- Source ethernet port extraction of normalize_eero (lines 391 to 413). -/
def ethernetPortsOf (raw : List (String × JSON)) : JSON :=
  match getJ raw "ethernet_status" (.obj []) with
  | .obj es =>
    match getJ es "statuses" (.arr []) with
    | .arr statuses =>
      if statuses.isEmpty then .null
      else .arr (statuses.filterMap portInfo)
    | _ => .null
  | _ => .null

/-- Source normalize_eero: the canonical flat eero node mapping. -/
def normalize_eero (raw : List (String × JSON)) : List (String × JSON) :=
  let location :=
    match getJ raw "location" .null with
    | .obj l => pyOr (getJ l "address" .null) (getJ l "name" .null)
    | v => v
  [ ("id", jsonOfOptStr (extractIdJ (getJ raw "url" .null)))
  , ("url", getJ raw "url" .null)
  , ("serial", getJ raw "serial" .null)
  , ("mac_address", getJ raw "mac_address" .null)
  , ("model", getJ raw "model" .null)
  , ("model_number", getJ raw "model_number" .null)
  , ("status", getJ raw "status" .null)
  , ("state", getJ raw "state" .null)
  , ("location", location)
  , ("is_gateway", pyOr (getJ raw "gateway" (.bool false)) (getJ raw "is_gateway" (.bool false)))
  , ("is_primary", pyOr (getJ raw "is_primary" (.bool false)) (getJ raw "is_primary_node" (.bool false)))
  , ("wired", getJ raw "wired" (.bool false))
  , ("connection_type", getJ raw "connection_type" .null)
  , ("mesh_quality_bars", getJ raw "mesh_quality_bars" .null)
  , ("ip_address", getJ raw "ip_address" .null)
  , ("using_wan", getJ raw "using_wan" .null)
  , ("connected_clients_count", getJ raw "connected_clients_count" (.int 0))
  , ("connected_wired_clients_count", getJ raw "connected_wired_clients_count" .null)
  , ("connected_wireless_clients_count", getJ raw "connected_wireless_clients_count" .null)
  , ("firmware_version",
      pyOr (pyOr (getJ raw "firmware_version" .null) (getJ raw "os_version" .null))
        (getJ raw "os" .null))
  , ("os_version", pyOr (getJ raw "os_version" .null) (getJ raw "os" .null))
  , ("led_on", getJ raw "led_on" .null)
  , ("led_brightness", getJ raw "led_brightness" .null)
  , ("uptime", getJ raw "uptime" .null)
  , ("cpu_usage", getJ raw "cpu_usage" .null)
  , ("memory_usage", getJ raw "memory_usage" .null)
  , ("temperature", getJ raw "temperature" .null)
  , ("heartbeat_ok", getJ raw "heartbeat_ok" .null)
  , ("update_available", getJ raw "update_available" .null)
  , ("provides_wifi", getJ raw "provides_wifi" .null)
  , ("auto_provisioned", getJ raw "auto_provisioned" .null)
  , ("retrograde_capable", getJ raw "retrograde_capable" .null)
  , ("last_heartbeat", getJ raw "last_heartbeat" .null)
  , ("last_reboot", getJ raw "last_reboot" .null)
  , ("joined", getJ raw "joined" .null)
  , ("bands", getJ raw "bands" .null)
  , ("wifi_bssids", getJ raw "wifi_bssids" .null)
  , ("bssids_with_bands", getJ raw "bssids_with_bands" .null)
  , ("ethernet_addresses", getJ raw "ethernet_addresses" .null)
  , ("ethernet_ports", ethernetPortsOf raw)
  , ("ipv6_addresses", getJ raw "ipv6_addresses" .null)
  , ("organization", getJ raw "organization" .null)
  , ("power_info", getJ raw "power_info" .null)
  , ("power_saving", getJ raw "power_saving" .null)
  , ("network", getJ raw "network" .null)
  , ("_raw", .obj raw)
  ]

/-! ## normalize_profile (transformers.py lines 467 to 526) -/

/-- Source member id extraction: a truthy url value must be a string (else
re.search raises a TypeError) and is searched for a devices segment. -/
def memberIdE (dev : List (String × JSON)) : Except String (Option String) :=
  let u := getJ dev "url" (.str "")
  if truthy u then
    match u with
    | .str s => .ok ((findSegAfter "/devices/".toList s.toList).map String.mk)
    | _ => .error "TypeError: expected string or bytes-like object"
  else .ok none

/-- Source reduced member mapping appended to the devices list. -/
def memberEntry (dev : List (String × JSON)) (devId : Option String) : JSON :=
  .obj
    [ ("id", jsonOfOptStr devId)
    , ("url", getJ dev "url" (.str ""))
    , ("mac", getJ dev "mac" .null)
    , ("nickname", getJ dev "nickname" .null)
    , ("hostname", getJ dev "hostname" .null)
    , ("display_name",
        pyOr (pyOr (getJ dev "display_name" .null) (getJ dev "nickname" .null))
          (getJ dev "hostname" .null))
    , ("manufacturer", getJ dev "manufacturer" .null)
    , ("connected", getJ dev "connected" (.bool false))
    , ("wireless", getJ dev "wireless" (.bool false))
    , ("paused", getJ dev "paused" (.bool false))
    ]

/-- Source member loop of normalize_profile (lines 486 to 515): mapping
entries are reduced and kept in order, extractable ids are collected in
order, non-mapping entries are skipped. -/
def profileMembers : List JSON → Except String (List JSON × List String)
  | [] => .ok ([], [])
  | d :: rest =>
    match d with
    | .obj dev =>
      match memberIdE dev with
      | .error e => .error e
      | .ok devId =>
        match profileMembers rest with
        | .error e => .error e
        | .ok (devs, ids) =>
          .ok (memberEntry dev devId :: devs,
            match devId with
            | some i => i :: ids
            | none => ids)
    | _ => profileMembers rest

/-- Source resolution of the raw member list (lines 482 to 488): a mapping
under the devices key is unwrapped through its data key; a non-list result
contributes no members. -/
def resolvedDevices (raw : List (String × JSON)) : List JSON :=
  let d0 := getJ raw "devices" (.arr [])
  let d1 :=
    match d0 with
    | .obj d => getJ d "data" (.arr [])
    | v => v
  match d1 with
  | .arr l => l
  | _ => []

/-- Source normalize_profile: the canonical flat profile mapping. -/
def normalize_profile (raw : List (String × JSON)) : Except String (List (String × JSON)) :=
  match profileMembers (resolvedDevices raw) with
  | .error e => .error e
  | .ok (devs, ids) =>
    .ok
      [ ("id", jsonOfOptStr (extractIdJ (getJ raw "url" .null)))
      , ("url", getJ raw "url" .null)
      , ("name", getJ raw "name" .null)
      , ("paused", getJ raw "paused" (.bool false))
      , ("device_count", .int devs.length)
      , ("device_ids", .arr (ids.map JSON.str))
      , ("devices", .arr devs)
      , ("_raw", .obj raw)
      ]

/-! ## Helper views used by the theorems -/

/-- Field of a normalization result that may carry an error. -/
def fieldOf (r : Except String (List (String × JSON))) (k : String) : Option JSON :=
  match r with
  | .ok l => lookupJ l k
  | .error _ => none

/-- Field of a JSON value that is a mapping. -/
def fieldOfJ (v : JSON) (k : String) : Option JSON :=
  match v with
  | .obj l => lookupJ l k
  | _ => none

/-- Canonical serialization step between normalizer passes: the diagnostic
raw side channel is not part of the public schema and is dropped. -/
def dropRaw (l : List (String × JSON)) : List (String × JSON) :=
  l.filter (fun kv => kv.1 != "_raw")

/-- First truthy value of a candidate list; when every candidate is falsy
the last candidate value results (null for an empty list).  This is the
value of a chain of Python or operators. -/
def firstTruthy : List JSON → JSON
  | [] => .null
  | [v] => v
  | v :: rest => if truthy v then v else firstTruthy rest

/-- Pure view of the member id extraction, meaningful on members whose url
is a string or absent. -/
def memberId : JSON → Option String
  | .obj dev =>
    match getJ dev "url" (.str "") with
    | .str s => if s != "" then (findSegAfter "/devices/".toList s.toList).map String.mk else none
    | _ => none
  | _ => none

def JSON.isObjB : JSON → Bool
  | .obj _ => true
  | _ => false

/-! ## C2: extract_data contract -/

/-- C2: extract_data maps null to the empty mapping; an envelope carrying
both a meta key and a data key yields the data mapping unchanged when data
is a mapping and the empty mapping when data is a sequence; a mapping
without the envelope pair is returned as-is. -/
theorem extract_data_envelope_spec :
    extract_data .null = [] ∧
    (∀ m mv d, lookupJ m "meta" = some mv → lookupJ m "data" = some (.obj d) →
      extract_data (.obj m) = d) ∧
    (∀ m mv l, lookupJ m "meta" = some mv → lookupJ m "data" = some (.arr l) →
      extract_data (.obj m) = []) ∧
    (∀ m, lookupJ m "meta" = none ∨ lookupJ m "data" = none → extract_data (.obj m) = m) := by
  refine ⟨rfl, ?_, ?_, ?_⟩
  · intro m mv d h1 h2
    simp [extract_data, h1, h2]
  · intro m mv l h1 h2
    simp [extract_data, h1, h2]
  · intro m h
    rcases h with h | h
    · simp [extract_data, h]
    · cases h1 : lookupJ m "meta" <;> simp [extract_data, h, h1]

/-- Witness for C2 at concrete envelopes. -/
theorem extract_data_envelope_spec_witness :
    extract_data (.obj [("meta", .obj [("code", .int 200)]), ("data", .obj [("name", .str "T")])]) =
      [("name", .str "T")] ∧
    extract_data (.obj [("meta", .obj [("code", .int 200)]), ("data", .arr [.obj []])]) = [] ∧
    extract_data (.obj [("name", .str "T")]) = [("name", .str "T")] :=
  ⟨extract_data_envelope_spec.2.1 _ _ _ rfl rfl,
   extract_data_envelope_spec.2.2.1 _ _ _ rfl rfl,
   extract_data_envelope_spec.2.2.2 _ (Or.inl rfl)⟩

/-! ## C4: check_success contract -/

/-- C4: check_success maps null to false, returns booleans as-is, compares a
present non-null meta code with 200, treats a mapping whose meta lacks a
code (or is not a mapping, or is absent) as success, and coerces any other
input to its truthiness. -/
theorem check_success_spec :
    check_success .null = false ∧
    (∀ b, check_success (.bool b) = b) ∧
    (∀ m meta c, lookupJ m "meta" = some (.obj meta) → lookupJ meta "code" = some c →
      c ≠ .null → (check_success (.obj m) = true ↔ c = .int 200)) ∧
    (∀ m meta, lookupJ m "meta" = some (.obj meta) →
      lookupJ meta "code" = none ∨ lookupJ meta "code" = some .null →
      check_success (.obj m) = true) ∧
    (∀ m, lookupJ m "meta" = none → check_success (.obj m) = true) ∧
    (∀ m v, lookupJ m "meta" = some v → (∀ f, v ≠ .obj f) → check_success (.obj m) = true) ∧
    (∀ n, check_success (.int n) = truthy (.int n)) ∧
    (∀ s, check_success (.str s) = truthy (.str s)) ∧
    (∀ l, check_success (.arr l) = truthy (.arr l)) := by
  refine ⟨rfl, fun b => rfl, ?_, ?_, ?_, ?_, fun n => rfl, fun s => rfl, fun l => rfl⟩
  · intro m meta c h1 h2 hc
    rcases c with _ | b | n | s | l | f
    · exact absurd rfl hc
    · cases b <;> simp [check_success, getJ, h1, h2, codeIs200, pyNum]
    · simp [check_success, getJ, h1, h2, codeIs200, pyNum]
    · simp [check_success, getJ, h1, h2, codeIs200, pyNum]
    · simp [check_success, getJ, h1, h2, codeIs200, pyNum]
    · simp [check_success, getJ, h1, h2, codeIs200, pyNum]
  · intro m meta h1 h2
    rcases h2 with h2 | h2 <;> simp [check_success, getJ, h1, h2]
  · intro m h1
    simp [check_success, getJ, h1, lookupJ]
  · intro m v h1 hv
    rcases v with _ | b | n | s | l | f
    · simp [check_success, getJ, h1]
    · simp [check_success, getJ, h1]
    · simp [check_success, getJ, h1]
    · simp [check_success, getJ, h1]
    · simp [check_success, getJ, h1]
    · exact absurd rfl (hv f)

/-- Witness for C4 at concrete envelopes and scalars. -/
theorem check_success_spec_witness :
    (check_success (.obj [("meta", .obj [("code", .int 200)]), ("data", .obj [])]) = true ↔
      JSON.int 200 = .int 200) ∧
    (check_success (.obj [("meta", .obj [("code", .int 401)]), ("data", .obj [])]) = true ↔
      JSON.int 401 = .int 200) ∧
    check_success (.obj [("meta", .obj [("ok", .bool true)])]) = true ∧
    check_success (.obj [("name", .str "x")]) = true ∧
    check_success (.obj [("meta", .str "odd")]) = true :=
  ⟨check_success_spec.2.2.1 _ _ _ rfl rfl (by intro h; cases h),
   check_success_spec.2.2.1 _ _ _ rfl rfl (by intro h; cases h),
   check_success_spec.2.2.2.1 _ _ rfl (Or.inl rfl),
   check_success_spec.2.2.2.2.1 _ rfl,
   check_success_spec.2.2.2.2.2.1 _ _ rfl (by intro f h; cases h)⟩

/-! ## C1: the normalizer can raise on a wrong-typed frequency -/

/-- C1: contrary to the never-raise contract, a truthy non-numeric
connectivity frequency propagates a TypeError out of normalize_device
(transformers.py line 283 compares the raw value with 4000); the sibling
malformed-signal case does degrade to a null signal_strength with the rest
of the mapping computed, as the claim describes. -/
theorem normalize_device_string_frequency_raises :
    normalize_device [("connectivity", .obj [("frequency", .str "5200")])] =
      .error "TypeError: unorderable types in frequency comparison" ∧
    fieldOf (normalize_device
      [("connectivity", .obj [("signal", .int (-45)), ("frequency", .int 5200)])])
      "signal_strength" = some .null ∧
    fieldOf (normalize_device
      [("connectivity", .obj [("signal", .int (-45)), ("frequency", .int 5200)])])
      "frequency" = some (.str "5GHz") :=
  ⟨rfl, rfl, rfl⟩

/-! ## C3 counterexample: a plain mapping is not returned as-is -/

/-- C3 counterexample: a non-envelope mapping input with list-shaped content
yields the empty list from extract_list, so the mapping is discarded rather
than returned as-is. -/
theorem extract_list_plain_mapping_not_as_is :
    extract_list (.obj [("networks", .arr [.obj [("name", .str "Home")]])]) none = [] ∧
    JSON.obj [("networks", .arr [.obj [("name", .str "Home")]])] ≠ .obj [] := by
  refine ⟨rfl, ?_⟩
  intro h
  injection h with h1
  simp at h1

/-! ## C5 counterexample: the extracted id can be the empty string -/

/-- C5 counterexample: a URL consisting only of a path separator yields the
empty string, not null and not a non-empty segment. -/
theorem extract_id_slash_empty_string :
    extract_id_from_url (some "/") = some "" ∧ ("" : String).length = 0 :=
  ⟨rfl, rfl⟩

/-! ## C8 counterexample: a present empty-string candidate is skipped -/

/-- C8 counterexample: a present display_name holding the empty string loses
to the nickname because the source chains Python or over the candidates,
which skips false-like values rather than only null and missing ones. -/
theorem display_name_empty_string_skipped :
    fieldOf (normalize_device [("display_name", .str ""), ("nickname", .str "My Phone")])
      "display_name" = some (.str "My Phone") ∧
    JSON.str "My Phone" ≠ .str "" := by
  refine ⟨rfl, ?_⟩
  intro h
  injection h with h1
  simp at h1

/-! ## C9 counterexample: device normalization is not idempotent -/

/-- C9 counterexample: normalizing the canonical output of normalize_device
(with the diagnostic raw channel dropped, as the public schema does) resets
signal_strength from -45 to null, because the canonical schema no longer
carries the connectivity sub-mapping the field is derived from. -/
theorem normalize_device_not_idempotent :
    fieldOf (normalize_device
      [("url", .str "/devices/1"), ("connectivity", .obj [("signal", .str "-45 dBm")])])
      "signal_strength" = some (.int (-45)) ∧
    fieldOf ((normalize_device
      [("url", .str "/devices/1"), ("connectivity", .obj [("signal", .str "-45 dBm")])]).bind
        (fun out => normalize_device (dropRaw out))) "signal_strength" = some .null ∧
    some (JSON.int (-45)) ≠ some JSON.null := by
  refine ⟨rfl, rfl, ?_⟩
  intro h
  injection h with h1
  cases h1

/-! ## C3 amended: the extract_list search order -/

/-- Claim-level search order: the caller-supplied key first (when given and
non-empty, since the source treats a falsy key as absent), then the fixed
fallback priority keys. -/
def searchKeys : Option String → List String
  | some k => if k != "" then k :: fallbackKeys else fallbackKeys
  | none => fallbackKeys

/-- C3 amended: inside an envelope whose data is a mapping, extract_list is
a first-match search over the caller key followed by the fallback priority
keys, each candidate taken when it is a sequence and unwrapped one more
level when it is a mapping holding a nested data sequence; without an
envelope, a sequence input is returned as-is, while a mapping input yields
only the sequence under the caller-supplied key, or the empty list. -/
theorem extract_list_search_spec :
    (∀ fields data mv k?, lookupJ fields "meta" = some mv →
      lookupJ fields "data" = some (.obj data) →
      extract_list (.obj fields) k? = ((searchKeys k?).findSome? (tryKey data)).getD []) ∧
    (∀ l k?, extract_list (.arr l) k? = l) ∧
    (∀ fields k?, lookupJ fields "meta" = none ∨ lookupJ fields "data" = none →
      extract_list (.obj fields) k? =
        (match k? with
        | some k =>
          if k != "" then
            match lookupJ fields k with
            | some (.arr l) => l
            | _ => []
          else []
        | none => [])) := by
  refine ⟨?_, fun l k? => rfl, ?_⟩
  · intro fields data mv k? h1 h2
    simp only [extract_list, h1, h2]
    cases k? with
    | none => simp [searchKeys]
    | some k =>
      by_cases hk : k = ""
      · subst hk
        simp [searchKeys]
      · have hk2 : (k != "") = true := by simp [hk]
        simp only [searchKeys, hk2, if_true, List.findSome?_cons]
        cases htk : tryKey data k <;> simp [htk]
  · intro fields k? h
    rcases h with h | h
    · cases h1 : lookupJ fields "data" <;> simp [extract_list, h, h1]
    · cases h1 : lookupJ fields "meta" <;> simp [extract_list, h, h1]

/-- Witness for C3 at the concrete nested-envelope payloads. -/
theorem extract_list_search_spec_witness :
    extract_list (.obj [("meta", .obj []),
      ("data", .obj [("networks", .arr [.obj [("name", .str "Home")]])])]) (some "networks") =
      [.obj [("name", .str "Home")]] ∧
    extract_list (.obj [("meta", .obj []),
      ("data", .obj [("networks", .obj [("data", .arr [.obj [("name", .str "Net1")]])])])])
      (some "networks") = [.obj [("name", .str "Net1")]] ∧
    extract_list (.obj [("meta", .obj []),
      ("data", .obj [("eeros", .arr [.obj []])])]) none = [.obj []] ∧
    extract_list (.arr [.obj [("id", .str "1")]]) none = [.obj [("id", .str "1")]] ∧
    extract_list (.obj [("devices", .arr [.obj []])]) (some "devices") = [.obj []] := by
  refine ⟨?_, ?_, ?_, ?_, ?_⟩
  · have h := extract_list_search_spec.1
      [("meta", .obj []), ("data", .obj [("networks", .arr [.obj [("name", .str "Home")]])])]
      [("networks", .arr [.obj [("name", .str "Home")]])] (.obj []) (some "networks") rfl rfl
    exact h.trans rfl
  · have h := extract_list_search_spec.1
      [("meta", .obj []),
        ("data", .obj [("networks", .obj [("data", .arr [.obj [("name", .str "Net1")]])])])]
      [("networks", .obj [("data", .arr [.obj [("name", .str "Net1")]])])] (.obj [])
      (some "networks") rfl rfl
    exact h.trans rfl
  · have h := extract_list_search_spec.1
      [("meta", .obj []), ("data", .obj [("eeros", .arr [.obj []])])]
      [("eeros", .arr [.obj []])] (.obj []) none rfl rfl
    exact h.trans rfl
  · exact extract_list_search_spec.2.1 [.obj [("id", .str "1")]] none
  · have h := extract_list_search_spec.2.2 [("devices", .arr [.obj []])] (some "devices")
      (Or.inl rfl)
    exact h.trans rfl

/-! ## C5 amended: the last non-empty segment semantics -/

theorem splitSlash_ne_nil (l : List Char) : splitSlash l ≠ [] := by
  cases l with
  | nil => simp [splitSlash]
  | cons c rest =>
    simp only [splitSlash]
    rcases h : splitSlash rest with _ | ⟨s, ss⟩
    · simp
    · by_cases hc : c = '/' <;> simp [hc]

theorem splitSlash_cons (a : Char) (l s : List Char) (ss : List (List Char))
    (h : splitSlash l = s :: ss) :
    splitSlash (a :: l) = if a = '/' then [] :: s :: ss else (a :: s) :: ss := by
  simp only [splitSlash, h]

theorem splitSlash_concat_slash (xs : List Char) :
    splitSlash (xs ++ ['/']) = splitSlash xs ++ [[]] := by
  induction xs with
  | nil => rfl
  | cons c rest ih =>
    rcases h : splitSlash rest with _ | ⟨s, ss⟩
    · exact absurd h (splitSlash_ne_nil rest)
    · have h2 : splitSlash (rest ++ ['/']) = s :: (ss ++ [[]]) := by
        rw [ih, h]; rfl
      rw [List.cons_append, splitSlash_cons _ _ _ _ h2, splitSlash_cons _ _ _ _ h]
      by_cases hc : c = '/' <;> simp [hc]

theorem splitSlash_concat_char (xs : List Char) (c : Char) (hc : ¬ c = '/') :
    ∃ pre last, splitSlash xs = pre ++ [last] ∧
      splitSlash (xs ++ [c]) = pre ++ [last ++ [c]] := by
  induction xs with
  | nil => exact ⟨[], [], rfl, by simp [splitSlash, hc]⟩
  | cons a rest ih =>
    obtain ⟨pre, last, hA, hB⟩ := ih
    cases pre with
    | nil =>
      have hA2 : splitSlash rest = last :: [] := hA
      have hB2 : splitSlash (rest ++ [c]) = (last ++ [c]) :: [] := hB
      by_cases ha : a = '/'
      · refine ⟨[[]], last, ?_, ?_⟩
        · rw [splitSlash_cons _ _ _ _ hA2]
          simp [ha]
        · rw [List.cons_append, splitSlash_cons _ _ _ _ hB2]
          simp [ha]
      · refine ⟨[], a :: last, ?_, ?_⟩
        · rw [splitSlash_cons _ _ _ _ hA2]
          simp [ha]
        · rw [List.cons_append, splitSlash_cons _ _ _ _ hB2]
          simp [ha]
    | cons p ps =>
      have hA2 : splitSlash rest = p :: (ps ++ [last]) := hA
      have hB2 : splitSlash (rest ++ [c]) = p :: (ps ++ [last ++ [c]]) := hB
      by_cases ha : a = '/'
      · refine ⟨[] :: p :: ps, last, ?_, ?_⟩
        · rw [splitSlash_cons _ _ _ _ hA2]
          simp [ha]
        · rw [List.cons_append, splitSlash_cons _ _ _ _ hB2]
          simp [ha]
      · refine ⟨(a :: p) :: ps, last, ?_, ?_⟩
        · rw [splitSlash_cons _ _ _ _ hA2]
          simp [ha]
        · rw [List.cons_append, splitSlash_cons _ _ _ _ hB2]
          simp [ha]

theorem getLastD_concat_chunk (l : List (List Char)) (a d : List Char) :
    (l ++ [a]).getLastD d = a := by
  induction l generalizing d with
  | nil => rfl
  | cons x xs ih => simp [List.getLastD, ih x]

/-- The source computation (strip all trailing slashes, split, take the last
chunk) returns the last non-empty chunk of the plain split, or the empty
chunk when every chunk is empty. -/
theorem extractId_lastNonempty (l : List Char) :
    (splitSlash (rstripSlash l)).getLastD [] =
      ((splitSlash l).filter (fun s => !s.isEmpty)).getLastD [] := by
  induction l using List.reverseRecOn with
  | nil => rfl
  | append_singleton xs c ih =>
    by_cases hc : c = '/'
    · subst hc
      have h1 : rstripSlash (xs ++ ['/']) = rstripSlash xs := by
        simp [rstripSlash, List.dropWhile]
      rw [h1, splitSlash_concat_slash, List.filter_append]
      simpa using ih
    · have h1 : rstripSlash (xs ++ [c]) = xs ++ [c] := by
        simp [rstripSlash, List.dropWhile, hc]
      obtain ⟨pre, last, hA, hB⟩ := splitSlash_concat_char xs c hc
      rw [h1, hB, List.filter_append, getLastD_concat_chunk]
      have hne : (!(last ++ [c]).isEmpty) = true := by simp
      simp [hne, getLastD_concat_chunk]

/-- C5 amended: null or the empty string yields null; any other URL yields
the final non-empty slash-separated segment when the URL contains a
non-separator character, and the empty string when the non-empty URL
consists solely of separators (the source strips every trailing separator,
not one). -/
theorem extract_id_amended_spec :
    extract_id_from_url none = none ∧
    extract_id_from_url (some "") = none ∧
    ∀ u : String, u ≠ "" →
      extract_id_from_url (some u) =
        some (String.mk (((splitSlash u.toList).filter (fun s => !s.isEmpty)).getLastD [])) := by
  refine ⟨rfl, rfl, ?_⟩
  intro u hu
  have ht : truthy (.str u) = true := by simp [truthy, hu]
  simp only [extract_id_from_url, extractIdJ, ht, if_true]
  rw [show pyStr (.str u) = u from rfl, extractId_lastNonempty]

/-- Witness for C5 at the documented URLs. -/
theorem extract_id_amended_spec_witness :
    extract_id_from_url (some "/2.2/networks/123456") = some "123456" ∧
    extract_id_from_url (some "/2.2/eeros/eero123/") = some "eero123" :=
  ⟨(extract_id_amended_spec.2.2 "/2.2/networks/123456" (by decide)).trans rfl,
   (extract_id_amended_spec.2.2 "/2.2/eeros/eero123/" (by decide)).trans rfl⟩

/-! ## C6: connectivity-derived device fields -/

theorem stripDBm_cons_ne_space (c : Char) (hc : c ≠ ' ') (l : List Char) :
    stripDBm (c :: l) = c :: stripDBm l := by
  rw [stripDBm.eq_def]
  split
  · next rest heq =>
    injection heq with h1 h2
    exact absurd h1 hc
  · next c2 rest heq =>
    injection heq with h1 h2
    rw [h1, h2]
  · next heq => cases heq

theorem stripDBm_concat (l : List Char) (hs : ∀ ch ∈ l, ch ≠ ' ') :
    stripDBm (l ++ [' ', 'd', 'B', 'm']) = l := by
  induction l with
  | nil => rfl
  | cons c rest ih =>
    rw [List.cons_append, stripDBm_cons_ne_space c (hs c (by simp)) _,
      ih (fun ch h => hs ch (by simp [h]))]

/-- A space-free integer literal suffixed with the dBm unit parses back to
its integer value. -/
theorem parseSignal_suffix (s : String) (n : Int) (hs : ∀ ch ∈ s.toList, ch ≠ ' ')
    (hn : pyInt s = some n) : parseSignal (some (.str (s ++ " dBm"))) = some n := by
  have hne : s ++ " dBm" ≠ "" := by
    intro h
    have h2 := congrArg String.data h
    simp [String.data_append] at h2
  have hb : ((s ++ " dBm") != "") = true := by simp [hne]
  have hdata : (s ++ " dBm").toList = s.toList ++ [' ', 'd', 'B', 'm'] := by
    simp [String.toList, String.data_append]
  have hmk : String.mk s.toList = s := by cases s; rfl
  simp only [parseSignal, hb, if_true, hdata, stripDBm_concat s.toList hs, hmk, hn]

theorem pyOr_obj_obj (c : List (String × JSON)) : pyOr (.obj c) (.obj []) = .obj c := by
  cases c <;> simp [pyOr, truthy]

/-- Destructor for a successful normalize_device run: both fallible blocks
succeeded and every output field carries its defining expression. -/
theorem normalize_device_fields (raw out : List (String × JSON))
    (hok : normalize_device raw = .ok out) :
    ∃ conn src,
      connOf (pyOr (getJ raw "connectivity" (.obj [])) (.obj [])) = .ok conn ∧
      sourceOf (pyOr (getJ raw "source" (.obj [])) (.obj [])) = .ok src ∧
      lookupJ out "id" = some (jsonOfOptStr (extractIdJ (getJ raw "url" .null))) ∧
      lookupJ out "url" = some (getJ raw "url" .null) ∧
      lookupJ out "mac" = some (getJ raw "mac" .null) ∧
      lookupJ out "nickname" = some (getJ raw "nickname" .null) ∧
      lookupJ out "hostname" = some (getJ raw "hostname" .null) ∧
      lookupJ out "display_name" = some (pyOr
        (pyOr (getJ raw "display_name" .null) (getJ raw "nickname" .null))
        (getJ raw "hostname" .null)) ∧
      lookupJ out "wireless" = some (pyOr (getJ raw "wireless" .null) (.bool false)) ∧
      lookupJ out "blocked" = some (pyOr (getJ raw "blacklisted" .null) (.bool false)) ∧
      lookupJ out "connection_type" =
        some (.str (if truthy (getJ raw "wireless" .null) then "wireless" else "wired")) ∧
      lookupJ out "signal_strength" =
        some (match conn.signal with | some n => .int n | none => .null) ∧
      lookupJ out "signal_bars" = some conn.signal_bars ∧
      lookupJ out "frequency" = some (jsonOfOptStr conn.frequency) ∧
      lookupJ out "frequency_mhz" = some conn.frequency_mhz ∧
      lookupJ out "rx_bitrate" = some conn.rx_bitrate ∧
      lookupJ out "tx_bitrate" = some conn.tx_bitrate ∧
      lookupJ out "connected_to_eero" = some src.eero ∧
      lookupJ out "connected_to_eero_id" = some src.eero_id ∧
      lookupJ out "connected_to_eero_model" = some src.model ∧
      lookupJ out "profile_id" = some (profileOf raw).1 ∧
      lookupJ out "profile_name" = some (profileOf raw).2 := by
  rcases hC : connOf (pyOr (getJ raw "connectivity" (.obj [])) (.obj [])) with e | conn
  · simp only [normalize_device, hC] at hok
    exact Except.noConfusion hok
  rcases hS : sourceOf (pyOr (getJ raw "source" (.obj [])) (.obj [])) with e | src
  · simp only [normalize_device, hC, hS] at hok
    exact Except.noConfusion hok
  simp only [normalize_device, hC, hS, Except.ok.injEq] at hok
  subst hok
  exact ⟨conn, src, rfl, rfl, rfl, rfl, rfl, rfl, rfl, rfl, rfl, rfl, rfl, rfl, rfl, rfl,
    rfl, rfl, rfl, rfl, rfl, rfl, rfl, rfl⟩

/-- C6: for a device whose connectivity field is a mapping, signal_strength
is the integer parsed from the signal string suffixed with the dBm unit; a
present (truthy) MHz frequency is classified against the 4000 threshold;
signal_bars copies score_bars; bitrates are read directly when truthy and
otherwise derived from the rate-info sub-object as megabits with one
decimal and the MBit/s suffix, where the megabit value is the binary double
of the division as CPython formats it, and the rate stays below the float
overflow bound (past it CPython raises OverflowError instead). -/
theorem normalize_device_connectivity_spec (raw c out : List (String × JSON))
    (hc : lookupJ raw "connectivity" = some (.obj c))
    (hok : normalize_device raw = .ok out) :
    (∀ s n, (∀ ch ∈ s.toList, ch ≠ ' ') → pyInt s = some n →
      lookupJ c "signal" = some (.str (s ++ " dBm")) →
      lookupJ out "signal_strength" = some (.int n)) ∧
    (∀ m : Int, lookupJ c "frequency" = some (.int m) → m ≠ 0 →
      lookupJ out "frequency" = some (.str (if m > 4000 then "5GHz" else "2.4GHz"))) ∧
    (∀ v, lookupJ c "score_bars" = some v → lookupJ out "signal_bars" = some v) ∧
    (∀ v, lookupJ c "rx_bitrate" = some v → truthy v = true →
      lookupJ out "rx_bitrate" = some v) ∧
    (∀ v, lookupJ c "tx_bitrate" = some v → truthy v = true →
      lookupJ out "tx_bitrate" = some v) ∧
    (lookupJ c "rx_bitrate" = none → ∀ ri b, lookupJ c "rx_rate_info" = some (.obj ri) →
      lookupJ ri "rate_bps" = some (.int b) → 0 < b → divMegaOverflows b.toNat = false →
      lookupJ out "rx_bitrate" = some (.str (fmt1 b ++ " MBit/s"))) ∧
    (lookupJ c "tx_bitrate" = none → ∀ ti b, lookupJ c "tx_rate_info" = some (.obj ti) →
      lookupJ ti "rate_bps" = some (.int b) → 0 < b → divMegaOverflows b.toNat = false →
      lookupJ out "tx_bitrate" = some (.str (fmt1 b ++ " MBit/s"))) := by
  obtain ⟨conn, src, hC, hS, hfs⟩ := normalize_device_fields raw out hok
  obtain ⟨-, -, -, -, -, -, -, -, -, hsig, hbars, hfreq, -, hrx, htx, -⟩ := hfs
  have hv : pyOr (getJ raw "connectivity" (.obj [])) (.obj []) = .obj c := by
    rw [getJ, hc, Option.getD_some, pyOr_obj_obj]
  rw [hv] at hC
  rcases hfb : freqBand (getJ c "frequency" .null) with e | fq
  · simp only [connOf, hfb] at hC
    exact Except.noConfusion hC
  rcases htd : deriveBitrate (getJ c "tx_bitrate" .null) (getJ c "tx_rate_info" (.obj []))
    with e | tx
  · simp only [connOf, hfb, htd] at hC
    exact Except.noConfusion hC
  rcases hrd : deriveBitrate (getJ c "rx_bitrate" .null) (getJ c "rx_rate_info" (.obj []))
    with e | rx
  · simp only [connOf, hfb, htd, hrd] at hC
    exact Except.noConfusion hC
  simp only [connOf, hfb, htd, hrd, Except.ok.injEq] at hC
  subst hC
  refine ⟨?_, ?_, ?_, ?_, ?_, ?_, ?_⟩
  · intro s n hsp hpi hsl
    rw [hsig]
    simp only [hsl, parseSignal_suffix s n hsp hpi]
  · intro m hm hm0
    rw [hfreq]
    rw [getJ, hm, Option.getD_some] at hfb
    have ht : truthy (.int m) = true := by simp [truthy, hm0]
    simp only [freqBand, ht, if_true, pyNum, Except.ok.injEq] at hfb
    rw [← hfb]
    rfl
  · intro v hvv
    rw [hbars]
    simp only [getJ, hvv, Option.getD_some]
  · intro v hvv htv
    rw [hrx]
    rw [getJ, hvv, Option.getD_some, deriveBitrate, if_pos htv] at hrd
    exact congrArg some (Except.ok.inj hrd).symm
  · intro v hvv htv
    rw [htx]
    rw [getJ, hvv, Option.getD_some, deriveBitrate, if_pos htv] at htd
    exact congrArg some (Except.ok.inj htd).symm
  · intro hnone ri b hri hb hb0 hov
    rw [hrx]
    have hbne : (b != 0) = true := by simp only [bne_iff_ne, ne_eq]; omega
    simp only [getJ, hnone, hri, Option.getD_none, Option.getD_some] at hrd
    simp [deriveBitrate, bitrateFrom, truthy, pyNum, hb, hbne, hb0, hov] at hrd
    exact congrArg some hrd.symm
  · intro hnone ti b hti hb hb0 hov
    rw [htx]
    have hbne : (b != 0) = true := by simp only [bne_iff_ne, ne_eq]; omega
    simp only [getJ, hnone, hti, Option.getD_none, Option.getD_some] at htd
    simp [deriveBitrate, bitrateFrom, truthy, pyNum, hb, hbne, hb0, hov] at htd
    exact congrArg some htd.symm

/-- Witness for C6 at the documented connectivity payload and at a derived
bitrate payload. -/
theorem normalize_device_connectivity_spec_witness :
    fieldOf (normalize_device [("url", .str "/devices/1"),
      ("connectivity", .obj [("signal", .str "-45 dBm"), ("frequency", .int 5200),
        ("score_bars", .int 4)])]) "signal_strength" = some (.int (-45)) ∧
    fieldOf (normalize_device [("url", .str "/devices/1"),
      ("connectivity", .obj [("signal", .str "-45 dBm"), ("frequency", .int 5200),
        ("score_bars", .int 4)])]) "frequency" = some (.str "5GHz") ∧
    fieldOf (normalize_device [("url", .str "/devices/1"),
      ("connectivity", .obj [("signal", .str "-45 dBm"), ("frequency", .int 5200),
        ("score_bars", .int 4)])]) "signal_bars" = some (.int 4) ∧
    fieldOf (normalize_device [("connectivity",
      .obj [("tx_rate_info", .obj [("rate_bps", .int 150000000)])])]) "tx_bitrate" =
      some (.str "150.0 MBit/s") := by
  obtain ⟨h1, h2, h3, -, -, -, -⟩ := normalize_device_connectivity_spec
    [("url", .str "/devices/1"),
      ("connectivity", .obj [("signal", .str "-45 dBm"), ("frequency", .int 5200),
        ("score_bars", .int 4)])]
    [("signal", .str "-45 dBm"), ("frequency", .int 5200), ("score_bars", .int 4)] _ rfl rfl
  obtain ⟨-, -, -, -, -, -, h7⟩ := normalize_device_connectivity_spec
    [("connectivity", .obj [("tx_rate_info", .obj [("rate_bps", .int 150000000)])])]
    [("tx_rate_info", .obj [("rate_bps", .int 150000000)])] _ rfl rfl
  refine ⟨?_, ?_, ?_, ?_⟩
  · exact h1 "-45" (-45) (by decide) (by decide) rfl
  · exact h2 5200 rfl (by decide)
  · exact h3 (.int 4) rfl
  · exact h7 rfl [("rate_bps", .int 150000000)] 150000000 rfl rfl (by decide) rfl

/-! ## C8 amended: alias resolution is first-truthy, not first-present -/

theorem pyOr_chain_firstTruthy (a b c : JSON) :
    pyOr (pyOr a b) c = firstTruthy [a, b, c] := by
  by_cases ta : truthy a <;> by_cases tb : truthy b <;>
    simp [pyOr, firstTruthy, ta, tb]

/-- C8 amended: alias-resolved fields (device display_name over
display_name, nickname, hostname; eero firmware_version over
firmware_version, os_version, os) carry the first truthy candidate value; a
present false-like candidate such as an empty string is skipped, and when
every candidate is falsy the last candidate value (null when absent)
results, as firstTruthy specifies. -/
theorem alias_resolution_first_truthy :
    (∀ raw out, normalize_device raw = .ok out →
      lookupJ out "display_name" = some (firstTruthy
        [getJ raw "display_name" .null, getJ raw "nickname" .null,
          getJ raw "hostname" .null])) ∧
    (∀ raw, lookupJ (normalize_eero raw) "firmware_version" = some (firstTruthy
      [getJ raw "firmware_version" .null, getJ raw "os_version" .null,
        getJ raw "os" .null])) := by
  constructor
  · intro raw out hok
    obtain ⟨conn, src, hfs⟩ := normalize_device_fields raw out hok
    obtain ⟨-, -, -, -, -, -, -, hdn, -⟩ := hfs
    rw [hdn, pyOr_chain_firstTruthy]
  · intro raw
    have h : lookupJ (normalize_eero raw) "firmware_version" =
        some (pyOr (pyOr (getJ raw "firmware_version" .null) (getJ raw "os_version" .null))
          (getJ raw "os" .null)) := rfl
    rw [h, pyOr_chain_firstTruthy]

/-- Witness for C8 at the documented fallback inputs. -/
theorem alias_resolution_first_truthy_witness :
    fieldOf (normalize_device [("nickname", .str "My Phone")]) "display_name" =
      some (.str "My Phone") ∧
    fieldOf (normalize_device [("hostname", .str "iphone-12")]) "display_name" =
      some (.str "iphone-12") ∧
    fieldOf (normalize_device [("display_name", .str "Explicit"), ("nickname", .str "n")])
      "display_name" = some (.str "Explicit") ∧
    lookupJ (normalize_eero [("os", .str "7.2.0")]) "firmware_version" =
      some (.str "7.2.0") := by
  refine ⟨?_, ?_, ?_, ?_⟩
  · exact (alias_resolution_first_truthy.1 [("nickname", .str "My Phone")] _ rfl).trans rfl
  · exact (alias_resolution_first_truthy.1 [("hostname", .str "iphone-12")] _ rfl).trans rfl
  · exact (alias_resolution_first_truthy.1
      [("display_name", .str "Explicit"), ("nickname", .str "n")] _ rfl).trans rfl
  · exact (alias_resolution_first_truthy.2 [("os", .str "7.2.0")]).trans rfl

/-! ## C9 amended: what renormalization preserves and what it resets -/

theorem pyOr_resolve (a b c : JSON) :
    pyOr (pyOr (pyOr (pyOr a b) c) b) c = pyOr (pyOr a b) c := by
  by_cases ta : truthy a <;> by_cases tb : truthy b <;> by_cases tc : truthy c <;>
    simp [pyOr, ta, tb, tc]

theorem truthy_pyOr_false (w : JSON) : truthy (pyOr w (.bool false)) = truthy w := by
  by_cases tw : truthy w
  · simp [pyOr, tw]
  · have tw2 : truthy w = false := by simpa using tw
    rw [pyOr, tw2]
    rfl

/-- C9 amended: device normalization is not idempotent.  Re-normalizing the
canonical output (with the raw side channel dropped) preserves the
identification fields id, url, mac, nickname, hostname, display_name and
connection_type, but resets every field whose raw source key is absent from
the canonical schema: the connectivity-derived fields become null, blocked
(sourced from blacklisted) becomes false, and the source-eero and
profile-name fields become null. -/
theorem renormalize_device_spec (raw out out2 : List (String × JSON))
    (h1 : normalize_device raw = .ok out)
    (h2 : normalize_device (dropRaw out) = .ok out2) :
    lookupJ out2 "id" = lookupJ out "id" ∧
    lookupJ out2 "url" = lookupJ out "url" ∧
    lookupJ out2 "mac" = lookupJ out "mac" ∧
    lookupJ out2 "nickname" = lookupJ out "nickname" ∧
    lookupJ out2 "hostname" = lookupJ out "hostname" ∧
    lookupJ out2 "display_name" = lookupJ out "display_name" ∧
    lookupJ out2 "connection_type" = lookupJ out "connection_type" ∧
    lookupJ out2 "signal_strength" = some .null ∧
    lookupJ out2 "signal_bars" = some .null ∧
    lookupJ out2 "frequency" = some .null ∧
    lookupJ out2 "frequency_mhz" = some .null ∧
    lookupJ out2 "rx_bitrate" = some .null ∧
    lookupJ out2 "tx_bitrate" = some .null ∧
    lookupJ out2 "blocked" = some (.bool false) ∧
    lookupJ out2 "connected_to_eero" = some .null ∧
    lookupJ out2 "connected_to_eero_id" = some .null ∧
    lookupJ out2 "connected_to_eero_model" = some .null ∧
    lookupJ out2 "profile_name" = some .null := by
  rcases hC : connOf (pyOr (getJ raw "connectivity" (.obj [])) (.obj [])) with e | conn
  · simp only [normalize_device, hC] at h1
    exact Except.noConfusion h1
  rcases hS : sourceOf (pyOr (getJ raw "source" (.obj [])) (.obj [])) with e | src
  · simp only [normalize_device, hC, hS] at h1
    exact Except.noConfusion h1
  simp only [normalize_device, hC, hS, Except.ok.injEq] at h1
  subst h1
  obtain ⟨conn2, src2, hC2, hS2, hid, hurl, hmac, hnick, hhost, hdn, hwl, hbl, hct, hsig,
    hbars, hfreq, hfm, hrx, htx, hce, hcei, hcem, hpid, hpn⟩ :=
    normalize_device_fields _ out2 h2
  have hconn2 : conn2 = ({} : ConnInfo) := (Except.ok.inj hC2).symm
  have hsrc2 : src2 = ({} : SourceInfo) := (Except.ok.inj hS2).symm
  refine ⟨?_, ?_, ?_, ?_, ?_, ?_, ?_, ?_, ?_, ?_, ?_, ?_, ?_, ?_, ?_, ?_, ?_, ?_⟩
  · rw [hid]; rfl
  · rw [hurl]; rfl
  · rw [hmac]; rfl
  · rw [hnick]; rfl
  · rw [hhost]; rfl
  · rw [hdn]
    show some (pyOr (pyOr (pyOr (pyOr (getJ raw "display_name" .null)
      (getJ raw "nickname" .null)) (getJ raw "hostname" .null))
      (getJ raw "nickname" .null)) (getJ raw "hostname" .null)) = _
    rw [pyOr_resolve]
    rfl
  · rw [hct]
    show (some (JSON.str (if truthy (pyOr (getJ raw "wireless" JSON.null)
      (JSON.bool false)) then "wireless" else "wired")) : Option JSON) = _
    rw [truthy_pyOr_false]
    rfl
  · rw [hsig, hconn2]
  · rw [hbars, hconn2]
  · rw [hfreq, hconn2]; rfl
  · rw [hfm, hconn2]
  · rw [hrx, hconn2]
  · rw [htx, hconn2]
  · rw [hbl]; rfl
  · rw [hce, hsrc2]
  · rw [hcei, hsrc2]
  · rw [hcem, hsrc2]
  · rw [hpn]; rfl

/-- Witness for C9 at a concrete device carrying connectivity and a
blacklist flag. -/
theorem renormalize_device_spec_witness :
    fieldOf ((normalize_device [("url", .str "/devices/7"),
      ("connectivity", .obj [("signal", .str "-60 dBm")]), ("blacklisted", .bool true)]).bind
        (fun o => normalize_device (dropRaw o))) "id" = some (.str "7") ∧
    fieldOf ((normalize_device [("url", .str "/devices/7"),
      ("connectivity", .obj [("signal", .str "-60 dBm")]), ("blacklisted", .bool true)]).bind
        (fun o => normalize_device (dropRaw o))) "signal_strength" = some .null ∧
    fieldOf ((normalize_device [("url", .str "/devices/7"),
      ("connectivity", .obj [("signal", .str "-60 dBm")]), ("blacklisted", .bool true)]).bind
        (fun o => normalize_device (dropRaw o))) "blocked" = some (.bool false) := by
  obtain ⟨hid, -, -, -, -, -, -, hsig, -, -, -, -, -, hbl, -⟩ :=
    renormalize_device_spec [("url", .str "/devices/7"),
      ("connectivity", .obj [("signal", .str "-60 dBm")]), ("blacklisted", .bool true)]
      _ _ rfl rfl
  exact ⟨hid.trans rfl, hsig, hbl⟩

/-! ## C7 and C10: profile member aggregation -/

/-- The reduced member entries of a resolved member list: each mapping entry
is reduced, other entries are skipped, mirroring the member loop. -/
def memberEntries (l : List JSON) : List JSON :=
  l.filterMap (fun d =>
    match d with
    | .obj dev => some (memberEntry dev (memberId d))
    | _ => none)

theorem memberIdE_ok (dev : List (String × JSON)) (x : Option String)
    (h : memberIdE dev = .ok x) : memberId (.obj dev) = x := by
  rcases hu : getJ dev "url" (.str "") with _ | b | n | s | l | f
  · simp [memberIdE, hu, truthy] at h
    simp [memberId, hu, h]
  · cases b
    · simp [memberIdE, hu, truthy] at h
      simp [memberId, hu, h]
    · simp [memberIdE, hu, truthy] at h
  · by_cases hn : n = 0
    · subst hn
      simp [memberIdE, hu, truthy] at h
      simp [memberId, hu, h]
    · simp [memberIdE, hu, truthy, hn] at h
  · by_cases hs : s = ""
    · subst hs
      simp [memberIdE, hu, truthy] at h
      simp [memberId, hu, h]
    · simp [memberIdE, hu, truthy, hs] at h
      simp [memberId, hu, hs, h]
  · by_cases hl : l.isEmpty
    · simp [memberIdE, hu, truthy, hl] at h
      simp [memberId, hu, h]
    · simp [memberIdE, hu, truthy, hl] at h
  · by_cases hf : f.isEmpty
    · simp [memberIdE, hu, truthy, hf] at h
      simp [memberId, hu, h]
    · simp [memberIdE, hu, truthy, hf] at h

theorem profileMembers_ok (l : List JSON) (devs : List JSON) (ids : List String)
    (h : profileMembers l = .ok (devs, ids)) :
    devs = memberEntries l ∧ ids = l.filterMap memberId := by
  induction l generalizing devs ids with
  | nil =>
    simp only [profileMembers, Except.ok.injEq, Prod.mk.injEq] at h
    obtain ⟨h1, h2⟩ := h
    simp [memberEntries, ← h1, ← h2]
  | cons d rest ih =>
    rcases d with _ | b | n | s | l2 | dev
    case obj =>
      rcases hm : memberIdE dev with e | x
      · simp only [profileMembers, hm] at h
        exact Except.noConfusion h
      rcases hr : profileMembers rest with e | pr
      · simp only [profileMembers, hm, hr] at h
        exact Except.noConfusion h
      obtain ⟨ds, is⟩ := pr
      simp only [profileMembers, hm, hr, Except.ok.injEq, Prod.mk.injEq] at h
      obtain ⟨h1, h2⟩ := h
      obtain ⟨ih1, ih2⟩ := ih ds is hr
      have hx := memberIdE_ok dev x hm
      constructor
      · rw [← h1, ih1]
        simp [memberEntries, List.filterMap_cons, hx]
      · rw [← h2, ih2]
        cases x <;> simp [List.filterMap_cons, hx]
    all_goals
      simp only [profileMembers] at h
      obtain ⟨ih1, ih2⟩ := ih devs ids h
      constructor
    all_goals
      first
      | (rw [ih1]; simp [memberEntries, List.filterMap_cons])
      | (rw [ih2]; simp [List.filterMap_cons, memberId])

/-- C7: device_count of a normalized profile equals the length of the
devices list it emits (one reduced entry per resolved mapping member),
never a vendor-supplied count field, and device_ids lists exactly the
member ids extracted from each member URL, in input order. -/
theorem normalize_profile_count_spec (raw out : List (String × JSON))
    (hok : normalize_profile raw = .ok out) :
    lookupJ out "devices" = some (.arr (memberEntries (resolvedDevices raw))) ∧
    lookupJ out "device_count" =
      some (.int (memberEntries (resolvedDevices raw)).length) ∧
    lookupJ out "device_ids" =
      some (.arr (((resolvedDevices raw).filterMap memberId).map JSON.str)) := by
  rcases hpm : profileMembers (resolvedDevices raw) with e | pr
  · simp only [normalize_profile, hpm] at hok
    exact Except.noConfusion hok
  obtain ⟨devs, ids⟩ := pr
  obtain ⟨h1, h2⟩ := profileMembers_ok _ _ _ hpm
  simp only [normalize_profile, hpm, Except.ok.injEq] at hok
  subst hok
  subst h1
  subst h2
  exact ⟨rfl, rfl, rfl⟩

/-- Witness for C7: two embedded devices and a disagreeing vendor count. -/
theorem normalize_profile_count_spec_witness :
    fieldOf (normalize_profile [("url", .str "/profiles/1"), ("device_count", .int 99),
      ("devices", .arr [.obj [("url", .str "/devices/dev1"), ("nickname", .str "Phone")],
        .obj [("url", .str "/devices/dev2"), ("hostname", .str "tablet")]])])
      "device_count" = some (.int 2) ∧
    fieldOf (normalize_profile [("url", .str "/profiles/1"), ("device_count", .int 99),
      ("devices", .arr [.obj [("url", .str "/devices/dev1"), ("nickname", .str "Phone")],
        .obj [("url", .str "/devices/dev2"), ("hostname", .str "tablet")]])])
      "device_ids" = some (.arr [.str "dev1", .str "dev2"]) := by
  obtain ⟨-, h2, h3⟩ := normalize_profile_count_spec
    [("url", .str "/profiles/1"), ("device_count", .int 99),
      ("devices", .arr [.obj [("url", .str "/devices/dev1"), ("nickname", .str "Phone")],
        .obj [("url", .str "/devices/dev2"), ("hostname", .str "tablet")]])] _ rfl
  exact ⟨h2.trans rfl, h3.trans rfl⟩

theorem memberEntries_length_obj (l : List JSON) (hobj : ∀ d ∈ l, JSON.isObjB d = true) :
    (memberEntries l).length = l.length := by
  induction l with
  | nil => rfl
  | cons d rest ih =>
    rcases d with _ | b | n | s | l2 | dev
    case obj =>
      have ih2 := ih (fun x hx => hobj x (List.mem_cons_of_mem _ hx))
      have hme : memberEntries (JSON.obj dev :: rest) =
          memberEntry dev (memberId (JSON.obj dev)) :: memberEntries rest := by
        simp [memberEntries, List.filterMap_cons]
      rw [hme, List.length_cons, ih2, List.length_cons]
    all_goals exact absurd (hobj _ (List.mem_cons_self _ _)) (by simp [JSON.isObjB])

theorem length_filterMap_eq_iff {α β : Type} (f : α → Option β) (l : List α) :
    ((l.filterMap f).length = l.length) ↔ ∀ a ∈ l, (f a).isSome = true := by
  induction l with
  | nil => simp
  | cons a rest ih =>
    rcases hf : f a with _ | b
    · simp only [List.filterMap_cons, hf, List.length_cons]
      constructor
      · intro h
        have hle := List.length_filterMap_le f rest
        omega
      · intro h
        have h2 := h a (by simp)
        simp [hf] at h2
    · simp [List.filterMap_cons, hf, ih]

theorem memberEntries_getD_id (l : List JSON) (hobj : ∀ d ∈ l, JSON.isObjB d = true)
    (i : Nat) (hi : i < l.length) :
    fieldOfJ ((memberEntries l).getD i .null) "id" =
      some (jsonOfOptStr (memberId (l.getD i .null))) := by
  induction l generalizing i with
  | nil => simp at hi
  | cons d rest ih =>
    rcases d with _ | b | n | s | l2 | dev
    case obj =>
      have hme : memberEntries (.obj dev :: rest) =
          memberEntry dev (memberId (.obj dev)) :: memberEntries rest := by
        simp [memberEntries, List.filterMap_cons]
      cases i with
      | zero =>
        rw [hme]
        rfl
      | succ j =>
        rw [hme]
        simp only [List.getD_cons_succ]
        exact ih (fun x hx => hobj x (List.mem_cons_of_mem _ hx)) j (by simpa using hi)
    all_goals exact absurd (hobj _ (List.mem_cons_self _ _)) (by simp [JSON.isObjB])

/-- C10: when every resolved profile member is a mapping, no member is
dropped (one reduced entry per member, so device_count counts them all), an
entry whose URL yields no devices segment carries a null id and contributes
nothing to device_ids, hence device_ids is never longer than device_count,
with equality exactly when every member URL yields an extractable id. -/
theorem profile_device_ids_subset_spec (raw out : List (String × JSON))
    (hok : normalize_profile raw = .ok out)
    (hobj : ∀ d ∈ resolvedDevices raw, JSON.isObjB d = true) :
    (memberEntries (resolvedDevices raw)).length = (resolvedDevices raw).length ∧
    ((resolvedDevices raw).filterMap memberId).length ≤
      (memberEntries (resolvedDevices raw)).length ∧
    (((resolvedDevices raw).filterMap memberId).length =
        (memberEntries (resolvedDevices raw)).length ↔
      ∀ d ∈ resolvedDevices raw, (memberId d).isSome = true) ∧
    (∀ i, i < (resolvedDevices raw).length →
      fieldOfJ ((memberEntries (resolvedDevices raw)).getD i .null) "id" =
        some (jsonOfOptStr (memberId ((resolvedDevices raw).getD i .null)))) ∧
    lookupJ out "device_count" =
      some (.int (memberEntries (resolvedDevices raw)).length) ∧
    lookupJ out "device_ids" =
      some (.arr (((resolvedDevices raw).filterMap memberId).map JSON.str)) := by
  obtain ⟨-, hcount, hids⟩ := normalize_profile_count_spec raw out hok
  have hlen := memberEntries_length_obj (resolvedDevices raw) hobj
  refine ⟨hlen, ?_, ?_, ?_, hcount, hids⟩
  · rw [hlen]
    exact List.length_filterMap_le _ _
  · rw [hlen]
    exact length_filterMap_eq_iff memberId (resolvedDevices raw)
  · exact memberEntries_getD_id (resolvedDevices raw) hobj

/-- Witness for C10: a member with a non-devices URL next to a regular one. -/
theorem profile_device_ids_subset_spec_witness :
    fieldOf (normalize_profile [("url", .str "/profiles/9"),
      ("devices", .arr [.obj [("url", .str "/x/1")],
        .obj [("url", .str "/devices/d2")]])]) "device_count" = some (.int 2) ∧
    fieldOf (normalize_profile [("url", .str "/profiles/9"),
      ("devices", .arr [.obj [("url", .str "/x/1")],
        .obj [("url", .str "/devices/d2")]])]) "device_ids" = some (.arr [.str "d2"]) ∧
    fieldOfJ ((memberEntries (resolvedDevices [("url", .str "/profiles/9"),
      ("devices", .arr [.obj [("url", .str "/x/1")],
        .obj [("url", .str "/devices/d2")]])])).getD 0 .null) "id" = some .null := by
  obtain ⟨h1, h2, h3, h4, h5, h6⟩ := profile_device_ids_subset_spec
    [("url", .str "/profiles/9"),
      ("devices", .arr [.obj [("url", .str "/x/1")], .obj [("url", .str "/devices/d2")]])]
    _ rfl (by decide)
  exact ⟨h5.trans rfl, h6.trans rfl, (h4 0 (by decide)).trans rfl⟩
